import Mathlib

/-!
Verification model of the provisioning reconciliation state machine of
outline-server (server_manager), shallowly embedding:

  * `src/unnamed/part_001` — `DigitalOceanServer` (cached-refresh monitor):
    tag decoding (`getTagMap`), `ipv4Address`, `getManagementApiAddress`,
    `getCertificateFingerprint`, `setApiUrlAndCertificate`,
    `setInstallState`, `pollInstallState` (the slow 3s refresh timer with
    its timeout and fail-fast error path), `waitOnInstall` (the fast 100ms
    cache-check timer), `getHost`, `onDelete`.
  * `src/src/server_manager/web_app/gcp_server.ts` — `GcpServer`
    (direct-poll monitor): `waitOnInstall` loop over guest-attribute
    snapshots, `setInstallState`, `isInstallCompleted`, `onDelete`,
    `getHost`.

JavaScript machine details that matter are modelled explicitly: object
field truthiness (`jsTruthy`), `String.prototype.split` with limit 2,
last-write-wins key/value maps, and `endsWith` for a one-character suffix.
-/

/-- Ordered install states, from the identical enums in both source files:
UNKNOWN(0) < CREATED(1) < BOOTED(2) < SUCCESS(3), plus ERROR(4) and
DELETED(5). -/
inductive InstallState where
  | UNKNOWN
  | CREATED
  | BOOTED
  | SUCCESS
  | ERROR
  | DELETED
deriving DecidableEq, Repr

/-- Numeric value of each enum member, as assigned by TypeScript. -/
def InstallState.val : InstallState → Nat
  | .UNKNOWN => 0
  | .CREATED => 1
  | .BOOTED => 2
  | .SUCCESS => 3
  | .ERROR => 4
  | .DELETED => 5

/-- JavaScript truthiness of an optional string field: `undefined` and the
empty string are falsy, every other string is truthy. -/
def jsTruthy : Option String → Bool
  | none => false
  | some s => !s.data.isEmpty

/-- Lowercasing of a string, character by character, as
`String.prototype.toLowerCase` acts on the code units used here. -/
def lowerStr (s : String) : String :=
  (s.data.map Char.toLower).asString

/-- Splitting of a character list on a separator character, matching
`String.prototype.split`: the empty string yields one empty part. -/
def splitOnChar (sep : Char) : List Char → List (List Char)
  | [] => [[]]
  | x :: xs =>
    match splitOnChar sep xs with
    | [] => [[]]
    | h :: t => if x = sep then [] :: h :: t else (x :: h) :: t

/-- Lookup in a key/value map represented as an insertion list, with the
last write winning, matching JavaScript object assignment and `Map.set`. -/
def kvGet (m : List (String × String)) (k : String) : Option String :=
  (m.reverse.find? (fun e => e.1 == k)).map (fun e => e.2)

/-- Embeds the check `s.endsWith('/')` from the source; for the
one-character suffix this is exactly that the last character is a slash. -/
def endsWithSlash (s : String) : Bool :=
  s.data.getLast? == some '/'

/-- Modelled from the spec: hex digit values accepted by the decoder of
`infrastructure/hex_encoding` (not under src/); both letter cases parse. -/
def hexDigitVal (c : Char) : Option Nat :=
  if '0' ≤ c ∧ c ≤ '9' then some (c.toNat - Char.toNat '0')
  else if 'a' ≤ c ∧ c ≤ 'f' then some (c.toNat - Char.toNat 'a' + 10)
  else if 'A' ≤ c ∧ c ≤ 'F' then some (c.toNat - Char.toNat 'A' + 10)
  else none

/-- Modelled from the spec: pairwise hex decoding of a character list; any
malformed input (odd length or a non-hex digit) is a decoding failure. -/
def hexPairs : List Char → Option (List Char)
  | [] => some []
  | [_] => none
  | a :: b :: rest =>
    match hexDigitVal a, hexDigitVal b, hexPairs rest with
    | some hi, some lo, some tl => some (Char.ofNat (16 * hi + lo) :: tl)
    | _, _, _ => none

/-- Modelled from the spec: `hexToString` of `infrastructure/hex_encoding`
(the file is not under src/): tag values are hex-encoded, and a decoding
failure makes the entry be skipped rather than failing the snapshot. -/
def hexToString (s : String) : Option String :=
  (hexPairs s.data).map List.asString

namespace DigitalOceanServer

/-- Tag key for the manager API certificate fingerprint. -/
def CERTIFICATE_FINGERPRINT_TAG : String := "certsha256"

/-- Tag key for the manager API URL. -/
def API_URL_TAG : String := "apiurl"

/-- Tag which appears if there is an error during installation. -/
def INSTALL_ERROR_TAG : String := "install-error"

/-- Deprecated tag key for the manager API port. -/
def DEPRECATED_API_PORT_TAG : String := "apiport"

/-- Deprecated tag key for the manager API url path segment. -/
def DEPRECATED_API_PREFIX_TAG : String := "apiprefix"

/-- Timeout of `pollInstallState`: 5 * 60 * 1000 milliseconds. -/
def TIMEOUT_MS : Nat := 5 * 60 * 1000

/-- One entry of `dropletInfo.networks.v4`. -/
structure NetworkEntry where
  «type» : String
  ip_address : String
deriving DecidableEq, Repr

/-- The slice of `DropletInfo` read by the embedded operations: status,
raw tags, v4 networks, and the size/region data used by the host. -/
structure DropletInfo where
  status : String
  tags : List String
  networksV4 : List NetworkEntry
  sizeTransfer : Nat
  sizePriceMonthly : Nat
  regionSlug : String
deriving DecidableEq, Repr

/-- Embeds `startsWithCaseInsensitive` from the source file:
`text.slice(0, p.length).toLowerCase() === p.toLowerCase()`. -/
def startsWithCaseInsensitive (text p : String) : Bool :=
  lowerStr (text.data.take p.length).asString == lowerStr p

/-- Embeds `getTagMap`: each raw tag is matched case-insensitively against
the key-value namespace literal `"kv:"`; the remainder is split on
`':'` with limit 2 into a key and a hex value; a missing or undecodable
hex value skips the entry; the decoded value is stored under the
lowercased key, later assignments winning. -/
def getTagMap (tags : List String) : List (String × String) :=
  tags.foldl (fun ret tag =>
    if startsWithCaseInsensitive tag ("kv" ++ ":") then
      let keyValuePair := tag.data.drop ("kv:".length)
      let parts := splitOnChar ':' keyValuePair
      let key := (parts.headD []).asString
      match parts[1]? with
      | none => ret
      | some hexValue =>
        match hexToString hexValue.asString with
        | none => ret
        | some v => ret ++ [(lowerStr key, v)]
    else ret) []

/-- Embeds `ipv4Address`: the first public v4 network address, if any. -/
def ipv4Address (info : DropletInfo) : Option String :=
  (info.networksV4.find? (fun n => n.«type» == "public")).map
    (fun n => n.ip_address)

/-- Modelled from the spec: the browser `btoa` base64 encoder applied to
the fingerprint before pinning (an external platform function, not in
src/). No property below inspects its output, only whether the
fingerprint resolved, so an injective placeholder encoding is used. -/
def btoa (s : String) : String := s

/-- Embeds `getCertificateFingerprint`: returns the base64 fingerprint if
the fingerprint tag is truthy, otherwise throws. -/
def getCertificateFingerprint (info : DropletInfo) : Except Unit String :=
  match kvGet (getTagMap info.tags) CERTIFICATE_FINGERPRINT_TAG with
  | some f => if f.data.isEmpty then .error () else .ok (btoa f)
  | none => .error ()

/-- Embeds the tag part of `getManagementApiAddress`: use the `apiurl`
tag when truthy; otherwise synthesize the address from the deprecated
port tag and the public IPv4 address, appending the deprecated path
segment when truthy; throw when neither route resolves. -/
def rawApiAddress (info : DropletInfo) : Except Unit String :=
  let tagMap := getTagMap info.tags
  if jsTruthy (kvGet tagMap API_URL_TAG) then
    .ok ((kvGet tagMap API_URL_TAG).getD "")
  else
    if !jsTruthy (kvGet tagMap DEPRECATED_API_PORT_TAG) then .error ()
    else if !jsTruthy (ipv4Address info) then .error ()
    else
      let base := "https://" ++ (ipv4Address info).getD "" ++ ":" ++
        (kvGet tagMap DEPRECATED_API_PORT_TAG).getD "" ++ "/"
      if jsTruthy (kvGet tagMap DEPRECATED_API_PREFIX_TAG) then
        .ok (base ++ (kvGet tagMap DEPRECATED_API_PREFIX_TAG).getD "" ++ "/")
      else .ok base

/-- Embeds the final statements of `getManagementApiAddress`: a trailing
slash is appended when missing. -/
def ensureTrailingSlash (addr : String) : String :=
  if endsWithSlash addr then addr else addr ++ "/"

/-- Embeds `getManagementApiAddress`: the tag-derived address with a
trailing slash guaranteed; throws when the address does not resolve. -/
def getManagementApiAddress (info : DropletInfo) : Except Unit String :=
  match rawApiAddress info with
  | .error e => .error e
  | .ok addr => .ok (ensureTrailingSlash addr)

/-- Embeds `setApiUrlAndCertificate`: tries the fingerprint getter then
the address getter; on success the pair (fingerprint pinned via the trust
store, recorded management API URL) is produced, otherwise nothing. -/
def setApiUrlAndCertificate (info : DropletInfo) : Option (String × String) :=
  match getCertificateFingerprint info with
  | .error _ => none
  | .ok fp =>
    match getManagementApiAddress info with
    | .error _ => none
    | .ok addr => some (fp, addr)

/-- Embeds `setInstallState`: a state with numeric value at least SUCCESS
is final and cannot be changed; otherwise the new state is assigned. -/
def setInstallState (cur next : InstallState) : InstallState :=
  if 3 ≤ cur.val then cur else next

/-- Embeds `onDelete`: the deletion callback calls
`setInstallState(InstallState.DELETED)`. -/
def onDelete (cur : InstallState) : InstallState :=
  setInstallState cur .DELETED

/-- Embeds `updateInstallState` inside `pollInstallState`: evaluated
against the cached droplet info with `elapsedMs = Date.now() -
startTimestamp`; a final state is never changed; otherwise the first
applicable rule of error tag, timeout, resolvable url and certificate,
non-empty tag map, active status fires, and otherwise the state is left
unchanged. -/
def updateInstallState (s : InstallState) (info : DropletInfo)
    (elapsedMs : Nat) : InstallState :=
  if 3 ≤ s.val then s
  else
    let tagMap := getTagMap info.tags
    if jsTruthy (kvGet tagMap INSTALL_ERROR_TAG) then
      setInstallState s .ERROR
    else if TIMEOUT_MS ≤ elapsedMs then
      setInstallState s .ERROR
    else
      match setApiUrlAndCertificate info with
      | some _ => setInstallState s .SUCCESS
      | none =>
        if 0 < tagMap.length then setInstallState s .BOOTED
        else if info.status == "active" then setInstallState s .CREATED
        else s

/-- One firing of the slow 3-second refresh timer: the elapsed time at the
tick, and either the refreshed droplet info or a refresh failure. -/
abbrev PollEvent : Type := Nat × Except Unit DropletInfo

/-- Embeds the 3-second interval body of `pollInstallState` over a
schedule of refresh outcomes: a final state stops the timer before any
request; a failed refresh sets ERROR and stops the timer; a successful
refresh re-evaluates `updateInstallState` and stops the timer once the
state is final. The returned time is the tick at which a final state was
reached within the schedule, if any. -/
def pollEvents (s : InstallState) :
    List PollEvent → InstallState × Option Nat
  | [] => (s, none)
  | (t, r) :: rest =>
    if 3 ≤ s.val then (s, none)
    else
      match r with
      | .error _ => (setInstallState s .ERROR, some t)
      | .ok info =>
        let s1 := updateInstallState s info t
        if 3 ≤ s1.val then (s1, some t) else pollEvents s1 rest

/-- Embeds `pollInstallState` end to end: the immediate synchronous
evaluation against the initial droplet info at elapsed time 0, then the
3-second interval processing the refresh schedule. -/
def runPoll (info0 : DropletInfo) (events : List PollEvent) :
    InstallState × Option Nat :=
  let s1 := updateInstallState .UNKNOWN info0 0
  if 3 ≤ s1.val then (s1, some 0) else pollEvents s1 events

/-- Outcome observed by a caller of `waitOnInstall`. -/
inductive WaitOutcome where
  | fulfilled
  | installFailed
  | deletedServer
deriving DecidableEq, Repr

/-- Embeds the 100ms interval body of `waitOnInstall`: below SUCCESS the
promise stays pending; at SUCCESS it fulfills; at ERROR it rejects with
`ServerInstallFailedError`; at DELETED it rejects with
`DeletedServerError`. -/
def waitOutcome (s : InstallState) : Option WaitOutcome :=
  if s.val < 3 then none
  else if s = .SUCCESS then some .fulfilled
  else if s = .ERROR then some .installFailed
  else if s = .DELETED then some .deletedServer
  else none

/-- Host descriptor constructed by `getHost`; the `birth` field models the
JavaScript allocation instant of the `new DigitalOceanHost(...)` value. -/
structure Host where
  sessionId : Nat
  dropletInfo : DropletInfo
  birth : Nat
deriving DecidableEq, Repr

/-- Embeds `getHost`: constructs a new `DigitalOceanHost` at every call,
from the session and droplet info current at the call instant. -/
def getHost (sessionId : Nat) (info : DropletInfo) (now : Nat) : Host :=
  { sessionId := sessionId, dropletInfo := info, birth := now }

/-- A droplet snapshot carrying neither a truthy error attribute nor a
resolvable endpoint and fingerprint pair: the premise of the timeout
claim, that the monitor never observes a success or error attribute. -/
def benignInfo (info : DropletInfo) : Prop :=
  jsTruthy (kvGet (getTagMap info.tags) INSTALL_ERROR_TAG) = false ∧
  setApiUrlAndCertificate info = none

instance (info : DropletInfo) : Decidable (benignInfo info) := by
  unfold benignInfo
  infer_instance

/-- A refresh tick that succeeds before the deadline and returns a benign
snapshot. -/
def benignEvent (ev : PollEvent) : Prop :=
  ∃ info, ev.2 = .ok info ∧ benignInfo info ∧ ev.1 < TIMEOUT_MS

/-- Concrete droplet snapshot used by witnesses: no tags, status new. -/
def sampleNewDroplet : DropletInfo :=
  { status := "new", tags := [], networksV4 := [], sizeTransfer := 1,
    sizePriceMonthly := 5, regionSlug := "nyc1" }

/-- Concrete droplet snapshot used by witnesses: no tags, status active. -/
def sampleActiveDroplet : DropletInfo :=
  { status := "active", tags := [], networksV4 := [], sizeTransfer := 1,
    sizePriceMonthly := 5, regionSlug := "nyc1" }

end DigitalOceanServer

namespace GcpServer

/-- Guest-attribute key names checked by the GCP poll loop. -/
def API_URL_KEY : String := "apiUrl"

/-- Guest-attribute key for the certificate fingerprint. -/
def CERT_SHA256_KEY : String := "certSha256"

/-- Guest-attribute key that appears on an installation error. -/
def INSTALL_ERROR_KEY : String := "install-error"

/-- Embeds the GCP `setInstallState`: a plain assignment, with no terminal
guard, followed by the listener notification. -/
def setInstallState (_cur next : InstallState) : InstallState := next

/-- Embeds the GCP `onDelete` callback: `installState = DELETED`
unconditionally, whatever the current state is. -/
def onDelete (_cur : InstallState) : InstallState := .DELETED

/-- Embeds the GCP `isInstallCompleted`:
`installState >= InstallState.SUCCESS`. -/
def isInstallCompleted (s : InstallState) : Bool :=
  decide (InstallState.SUCCESS.val ≤ s.val)

/-- What one iteration of the GCP `waitOnInstall` loop body does besides
moving the state: keep looping, record the endpoint and trust the
fingerprint, or throw `ServerInstallFailedError`. -/
inductive StepOutcome where
  | cont
  | installed (apiUrl certSha256 : String)
  | failed
deriving DecidableEq, Repr

/-- Embeds one iteration body of the GCP `waitOnInstall` loop, given the
installation state at the instant the fetched snapshot is examined: a
non-empty snapshot advances a state below BOOTED to BOOTED; a snapshot
with both the `apiUrl` and `certSha256` keys trusts the fingerprint,
records the endpoint and sets SUCCESS; otherwise an `install-error` key
sets ERROR and throws; otherwise the loop continues. -/
def step (s : InstallState) (attrs : List (String × String)) :
    InstallState × StepOutcome :=
  let s1 :=
    if 0 < attrs.length ∧ s.val < InstallState.BOOTED.val then
      setInstallState s .BOOTED
    else s
  if (kvGet attrs API_URL_KEY).isSome ∧ (kvGet attrs CERT_SHA256_KEY).isSome then
    (setInstallState s1 .SUCCESS,
      .installed ((kvGet attrs API_URL_KEY).getD "")
        ((kvGet attrs CERT_SHA256_KEY).getD ""))
  else if (kvGet attrs INSTALL_ERROR_KEY).isSome then
    (setInstallState s1 .ERROR, .failed)
  else (s1, .cont)

/-- Result of running the GCP `waitOnInstall` loop against a schedule of
fetch outcomes. -/
inductive RunResult where
  | pending (s : InstallState)
  | resolved (s : InstallState)
  | installFailed (s : InstallState)
  | fetchFailed (s : InstallState)
deriving DecidableEq, Repr

/-- Embeds the GCP `waitOnInstall` while loop over a schedule of guest
attribute fetch outcomes: the condition `installState < SUCCESS` is
checked before each fetch; a rejected fetch propagates out of the loop
because the body has no handler around the awaited call; a thrown
`ServerInstallFailedError` also leaves the loop; otherwise the loop keeps
consuming the schedule. -/
def loop (s : InstallState) :
    List (Except Unit (List (String × String))) → RunResult
  | [] => if s.val < 3 then .pending s else .resolved s
  | f :: rest =>
    if s.val < 3 then
      match f with
      | .error _ => .fetchFailed s
      | .ok attrs =>
        match step s attrs with
        | (s2, .failed) => .installFailed s2
        | (s2, _) => loop s2 rest
    else .resolved s

/-- Embeds `waitOnInstall` end to end: after the creation completion
promise resolves, the state is set to CREATED (an unguarded assignment),
then the polling loop runs. -/
def waitOnInstall (s0 : InstallState)
    (fetches : List (Except Unit (List (String × String)))) : RunResult :=
  loop (setInstallState s0 .CREATED) fetches

/-- Host descriptor; the `birth` field models the JavaScript allocation
instant of the `new GcpHost(...)` value. -/
structure Host where
  instanceId : String
  addressName : String
  birth : Nat
deriving DecidableEq, Repr

/-- The slice of `GcpServer` construction relevant to `getHost`: the
`gcpHost` field is built once, inside the constructor. -/
structure ServerState where
  gcpHost : Host
deriving DecidableEq, Repr

/-- Embeds the `GcpServer` constructor: `this.gcpHost = new GcpHost(...)`
is allocated at construction time. -/
def make (now : Nat) (instanceId addressName : String) : ServerState :=
  { gcpHost := { instanceId := instanceId, addressName := addressName, birth := now } }

/-- Embeds the GCP `getHost`: `return this.gcpHost`, the descriptor cached
in the constructor; the call instant is ignored. -/
def getHost (st : ServerState) (_now : Nat) : Host :=
  st.gcpHost

end GcpServer

/-! Helper lemmas shared by the claim theorems. -/

theorem endsWithSlash_append : ∀ s : String, endsWithSlash (s ++ "/") = true := by
  intro s
  simp [endsWithSlash, String.data_append]

theorem jsTruthy_some_of_ne (p : String) (h : p ≠ "") :
    jsTruthy (some p) = true := by
  have hd : p.data ≠ [] := by
    intro hnil
    apply h
    cases p
    simp_all
  simp [jsTruthy, List.isEmpty_iff, hd]

namespace GcpServer

theorem loop_terminal (s : InstallState) (h : 3 ≤ s.val) :
    ∀ fetches, loop s fetches = .resolved s := by
  intro fetches
  cases fetches <;> simp [loop, Nat.not_lt.2 h]

end GcpServer

namespace DigitalOceanServer

theorem pollEvents_append (l1 : List PollEvent) :
    ∀ (s s2 : InstallState) (l2 : List PollEvent),
      pollEvents s l1 = (s2, none) → s2.val < 3 →
      pollEvents s (l1 ++ l2) = pollEvents s2 l2 := by
  induction l1 with
  | nil =>
    intro s s2 l2 h _
    simp only [pollEvents, Prod.mk.injEq] at h
    obtain ⟨rfl, -⟩ := h
    simp
  | cons ev tl ih =>
    intro s s2 l2 h h2
    obtain ⟨t, r⟩ := ev
    by_cases hs : 3 ≤ s.val
    · simp only [pollEvents, if_pos hs] at h
      obtain rfl : s = s2 := congrArg Prod.fst h
      exact absurd hs (Nat.not_le.2 h2)
    · cases r with
      | error e =>
        simp only [pollEvents, if_neg hs] at h
        exact absurd (congrArg Prod.snd h) (by simp)
      | ok info =>
        by_cases hup : 3 ≤ (updateInstallState s info t).val
        · simp only [pollEvents, if_neg hs, if_pos hup] at h
          exact absurd (congrArg Prod.snd h) (by simp)
        · simp only [pollEvents, if_neg hs, if_neg hup] at h ⊢
          exact ih _ _ _ h h2

end DigitalOceanServer

/-- C1 counterexample: a concrete observation sequence on the cached
refresh monitor under which `currentState()` decreases below a terminal
value: a first refresh whose tag list contains one decodable key-value
tag moves UNKNOWN to BOOTED, and a second refresh whose droplet has no
tags but status active moves BOOTED back down to CREATED. -/
theorem c1_counterexample :
    DigitalOceanServer.updateInstallState .UNKNOWN
      { status := "new", tags := ["kv:foo:61"], networksV4 := [],
        sizeTransfer := 1, sizePriceMonthly := 5, regionSlug := "nyc1" }
      3000 = .BOOTED ∧
    DigitalOceanServer.updateInstallState .BOOTED
      { status := "active", tags := [], networksV4 := [],
        sizeTransfer := 1, sizePriceMonthly := 5, regionSlug := "nyc1" }
      6000 = .CREATED ∧
    InstallState.CREATED.val < InstallState.BOOTED.val := by
  exact ⟨by decide, by decide, by decide⟩

/-- C1 (amended): in the cached-refresh variant a state with numeric value
at least SUCCESS is never changed by `setInstallState` (so DELETED cannot
override ERROR there), and DELETED overrides every non-terminal state; in
the direct-poll variant one loop body never decreases a non-terminal
state, but the deletion callback sets DELETED unconditionally, even over
ERROR or SUCCESS; below SUCCESS the cached-refresh state is not monotone
(see the counterexample). -/
theorem c1_amended :
    (∀ s next : InstallState, 3 ≤ s.val →
        DigitalOceanServer.setInstallState s next = s) ∧
    (∀ s : InstallState, s.val < 3 →
        DigitalOceanServer.setInstallState s .DELETED = .DELETED) ∧
    (∀ (s : InstallState) (attrs : List (String × String)), s.val < 3 →
        s.val ≤ (GcpServer.step s attrs).1.val) ∧
    (∀ s : InstallState, GcpServer.onDelete s = .DELETED) := by
  refine ⟨?_, ?_, ?_, fun _ => rfl⟩
  · intro s next h
    simp [DigitalOceanServer.setInstallState, h]
  · intro s h
    simp [DigitalOceanServer.setInstallState, Nat.not_le.2 h]
  · intro s attrs h
    simp only [GcpServer.step]
    split
    · exact Nat.le_of_lt h
    · split
      · exact Nat.le_of_lt (Nat.lt_trans h (show (3 : Nat) < 4 by decide))
      · split
        · rename_i hcond
          exact Nat.le_of_lt hcond.2
        · exact Nat.le_refl _

/-- C1 amended witness at concrete states: ERROR is immune to DELETED in
the cached-refresh variant, BOOTED is overridden by DELETED there, one
direct-poll body from CREATED does not decrease the state, and the
direct-poll deletion callback turns ERROR into DELETED. -/
theorem c1_amended_witness :
    DigitalOceanServer.setInstallState .ERROR .DELETED = .ERROR ∧
    DigitalOceanServer.setInstallState .BOOTED .DELETED = .DELETED ∧
    InstallState.CREATED.val ≤
      (GcpServer.step .CREATED [("x", "y")]).1.val ∧
    GcpServer.onDelete .ERROR = .DELETED :=
  ⟨c1_amended.1 .ERROR .DELETED (by decide),
   c1_amended.2.1 .BOOTED (by decide),
   c1_amended.2.2.1 .CREATED [("x", "y")] (by decide),
   c1_amended.2.2.2 .ERROR⟩

/-- C2 counterexample: in the direct-poll variant, when the deletion
callback fires while an iteration holding an error snapshot is pending,
the body still applies the ERROR transition over DELETED and throws
`ServerInstallFailedError`, so the observable terminal state is ERROR and
the completion signal fails with the install-failed error, not the
deleted-server error. -/
theorem c2_counterexample :
    GcpServer.onDelete .CREATED = .DELETED ∧
    GcpServer.step (GcpServer.onDelete .CREATED)
      [("install-error", "disk full")] = (.ERROR, .failed) ∧
    InstallState.ERROR ≠ .DELETED := by
  exact ⟨by decide, by decide, by decide⟩

/-- C2 (amended): in the cached-refresh variant deletion takes precedence
over a pending ERROR transition: once DELETED is set, a later
`setInstallState ERROR` is discarded, and `waitOnInstall` rejects with
`DeletedServerError`, which is distinct from the install-failed
rejection; in the direct-poll variant a pending ERROR transition instead
overrides DELETED (see the counterexample). -/
theorem c2_amended : ∀ s : InstallState, s.val < 3 →
    DigitalOceanServer.setInstallState
      (DigitalOceanServer.setInstallState s .DELETED) .ERROR = .DELETED ∧
    DigitalOceanServer.waitOutcome .DELETED = some .deletedServer ∧
    DigitalOceanServer.WaitOutcome.deletedServer ≠ .installFailed := by
  intro s
  cases s <;> decide

/-- C2 amended witness: deletion before a pending ERROR delivery, starting
from the non-terminal state CREATED. -/
theorem c2_amended_witness :
    DigitalOceanServer.setInstallState
      (DigitalOceanServer.setInstallState .CREATED .DELETED) .ERROR = .DELETED ∧
    DigitalOceanServer.waitOutcome .DELETED = some .deletedServer ∧
    DigitalOceanServer.WaitOutcome.deletedServer ≠ .installFailed :=
  c2_amended .CREATED (by decide)

/-- C10: the direct-poll `isInstallCompleted` is the numeric comparison
`installState >= SUCCESS`, so it returns true exactly in SUCCESS, ERROR
and DELETED; in particular it reports true right after the deletion
callback and in the installation error state. -/
theorem c10_confirmed : ∀ s : InstallState,
    (GcpServer.isInstallCompleted s = true ↔
      (s = .SUCCESS ∨ s = .ERROR ∨ s = .DELETED)) ∧
    GcpServer.isInstallCompleted (GcpServer.onDelete s) = true ∧
    GcpServer.isInstallCompleted .ERROR = true ∧
    GcpServer.isInstallCompleted .DELETED = true := by
  intro s
  cases s <;> exact ⟨by decide, by decide, by decide, by decide⟩

/-- C3: the direct-poll monitor sets CREATED once the creation completion
resolves, and each fetched snapshot is handled by exactly the claimed
rules: a snapshot with both the endpoint and fingerprint keys trusts the
fingerprint, records the endpoint, sets SUCCESS and ends the polling (for
every remaining schedule); otherwise an error-key snapshot sets ERROR and
fails the completion signal with the install-failed error, ending the
polling; otherwise a non-empty snapshot advances a state below BOOTED to
BOOTED and polling continues; otherwise the state is unchanged and
polling continues. -/
theorem c3_confirmed :
    (∀ (s0 : InstallState) fetches,
        GcpServer.waitOnInstall s0 fetches = GcpServer.loop .CREATED fetches) ∧
    (∀ (s : InstallState) (attrs : List (String × String)) rest, s.val < 3 →
        (kvGet attrs GcpServer.API_URL_KEY).isSome = true →
        (kvGet attrs GcpServer.CERT_SHA256_KEY).isSome = true →
        GcpServer.step s attrs =
          (.SUCCESS, .installed ((kvGet attrs GcpServer.API_URL_KEY).getD "")
            ((kvGet attrs GcpServer.CERT_SHA256_KEY).getD "")) ∧
        GcpServer.loop s (Except.ok attrs :: rest) = .resolved .SUCCESS) ∧
    (∀ (s : InstallState) (attrs : List (String × String)) rest, s.val < 3 →
        ¬((kvGet attrs GcpServer.API_URL_KEY).isSome = true ∧
          (kvGet attrs GcpServer.CERT_SHA256_KEY).isSome = true) →
        (kvGet attrs GcpServer.INSTALL_ERROR_KEY).isSome = true →
        GcpServer.step s attrs = (.ERROR, .failed) ∧
        GcpServer.loop s (Except.ok attrs :: rest) = .installFailed .ERROR) ∧
    (∀ (s : InstallState) (attrs : List (String × String)) rest, s.val < 3 →
        ¬((kvGet attrs GcpServer.API_URL_KEY).isSome = true ∧
          (kvGet attrs GcpServer.CERT_SHA256_KEY).isSome = true) →
        (kvGet attrs GcpServer.INSTALL_ERROR_KEY).isSome = false →
        attrs ≠ [] → s.val < 2 →
        GcpServer.step s attrs = (.BOOTED, .cont) ∧
        GcpServer.loop s (Except.ok attrs :: rest) = GcpServer.loop .BOOTED rest) ∧
    (∀ (s : InstallState) (attrs : List (String × String)) rest, s.val < 3 →
        ¬((kvGet attrs GcpServer.API_URL_KEY).isSome = true ∧
          (kvGet attrs GcpServer.CERT_SHA256_KEY).isSome = true) →
        (kvGet attrs GcpServer.INSTALL_ERROR_KEY).isSome = false →
        (attrs = [] ∨ 2 ≤ s.val) →
        GcpServer.step s attrs = (s, .cont) ∧
        GcpServer.loop s (Except.ok attrs :: rest) = GcpServer.loop s rest) := by
  refine ⟨fun s0 fetches => rfl, ?_, ?_, ?_, ?_⟩
  · intro s attrs rest hs h1 h2
    have hstep : GcpServer.step s attrs =
        (.SUCCESS, .installed ((kvGet attrs GcpServer.API_URL_KEY).getD "")
          ((kvGet attrs GcpServer.CERT_SHA256_KEY).getD "")) := by
      simp [GcpServer.step, GcpServer.setInstallState, h1, h2]
    refine ⟨hstep, ?_⟩
    simp [GcpServer.loop, hs, hstep]
    exact GcpServer.loop_terminal .SUCCESS (by decide) rest
  · intro s attrs rest hs hnot herr
    have hstep : GcpServer.step s attrs = (.ERROR, .failed) := by
      simp only [GcpServer.step]
      rw [if_neg hnot, if_pos herr]
      simp [GcpServer.setInstallState]
    refine ⟨hstep, ?_⟩
    simp [GcpServer.loop, hs, hstep]
  · intro s attrs rest hs hnot herr hne hlt
    have hlen : 0 < attrs.length := List.length_pos.2 hne
    have hlt2 : s.val < InstallState.BOOTED.val := hlt
    have hstep : GcpServer.step s attrs = (.BOOTED, .cont) := by
      simp only [GcpServer.step]
      rw [if_neg hnot]
      simp [herr, hlen, hlt2, GcpServer.setInstallState]
    refine ⟨hstep, ?_⟩
    simp [GcpServer.loop, hs, hstep]
  · intro s attrs rest hs hnot herr hor
    have hcond : ¬(0 < attrs.length ∧ s.val < InstallState.BOOTED.val) := by
      rcases hor with h | h
      · subst h
        simp
      · intro hc
        exact absurd hc.2 (Nat.not_lt.2 h)
    have hstep : GcpServer.step s attrs = (s, .cont) := by
      simp only [GcpServer.step]
      rw [if_neg hcond, if_neg hnot]
      simp [herr]
    refine ⟨hstep, ?_⟩
    simp [GcpServer.loop, hs, hstep]

/-- C3 witness: the three kinds of snapshot on concrete inputs, starting
from the CREATED state. -/
theorem c3_witness :
    GcpServer.step .CREATED
      [("apiUrl", "https://1.2.3.4:443/"), ("certSha256", "abc")] =
      (.SUCCESS, .installed "https://1.2.3.4:443/" "abc") ∧
    GcpServer.loop .CREATED
      [Except.ok [("apiUrl", "https://1.2.3.4:443/"), ("certSha256", "abc")]] =
      .resolved .SUCCESS ∧
    GcpServer.step .CREATED [("install-error", "disk full")] =
      (.ERROR, .failed) ∧
    GcpServer.step .CREATED [("other", "x")] = (.BOOTED, .cont) := by
  refine ⟨?_, ?_, ?_, ?_⟩
  · exact (c3_confirmed.2.1 .CREATED
      [("apiUrl", "https://1.2.3.4:443/"), ("certSha256", "abc")] []
      (by decide) (by decide) (by decide)).1
  · exact (c3_confirmed.2.1 .CREATED
      [("apiUrl", "https://1.2.3.4:443/"), ("certSha256", "abc")] []
      (by decide) (by decide) (by decide)).2
  · exact (c3_confirmed.2.2.1 .CREATED [("install-error", "disk full")] []
      (by decide) (by decide) (by decide)).1
  · exact (c3_confirmed.2.2.2.1 .CREATED [("other", "x")] []
      (by decide) (by decide) (by decide) (by decide) (by decide)).1

/-- C6 counterexample: a transient fetch failure in the direct-poll loop
is escalated, not retried: the loop stops at the failed fetch and never
processes the following snapshot, even though that snapshot holds both
success keys; had the loop continued on the same interval as the claim
states, the run would have ended in SUCCESS. -/
theorem c6_counterexample :
    GcpServer.loop .CREATED
      [Except.error (),
       Except.ok [("apiUrl", "https://1.2.3.4:443/"), ("certSha256", "abc")]] =
      .fetchFailed .CREATED ∧
    GcpServer.loop .CREATED
      [Except.ok [("apiUrl", "https://1.2.3.4:443/"), ("certSha256", "abc")]] =
      .resolved .SUCCESS ∧
    GcpServer.RunResult.fetchFailed .CREATED ≠ .resolved .SUCCESS := by
  exact ⟨by decide, by decide, by decide⟩

/-- C6 (amended): in the direct-poll strategy a failed attribute fetch
propagates out of `waitOnInstall` and terminates the loop with the fetch
error (there is no handler around the awaited call); apart from that, the
loop terminates only on a success snapshot, on an error-key snapshot
(failing with the install-failed error), or because the state is already
final (for example after deletion), and there is no timeout: empty
snapshots keep it polling forever. -/
theorem c6_amended :
    (∀ (s : InstallState) (e : Unit) rest, s.val < 3 →
        GcpServer.loop s (Except.error e :: rest) = .fetchFailed s) ∧
    (∀ n : Nat,
        GcpServer.loop .CREATED (List.replicate n (Except.ok [])) =
          .pending .CREATED) ∧
    (∀ fetches, GcpServer.loop .DELETED fetches = .resolved .DELETED) ∧
    (∀ (s : InstallState) (attrs : List (String × String)) rest, s.val < 3 →
        ¬((kvGet attrs GcpServer.API_URL_KEY).isSome = true ∧
          (kvGet attrs GcpServer.CERT_SHA256_KEY).isSome = true) →
        (kvGet attrs GcpServer.INSTALL_ERROR_KEY).isSome = true →
        GcpServer.loop s (Except.ok attrs :: rest) = .installFailed .ERROR) := by
  refine ⟨?_, ?_, ?_, ?_⟩
  · intro s e rest hs
    simp [GcpServer.loop, hs]
  · intro n
    induction n with
    | zero => decide
    | succ k ih => simpa [GcpServer.loop, List.replicate_succ, GcpServer.step,
        GcpServer.setInstallState, kvGet] using ih
  · intro fetches
    exact GcpServer.loop_terminal .DELETED (by decide) fetches
  · intro s attrs rest hs hnot herr
    have hstep : GcpServer.step s attrs = (.ERROR, .failed) := by
      simp only [GcpServer.step]
      rw [if_neg hnot, if_pos herr]
      simp [GcpServer.setInstallState]
    simp [GcpServer.loop, hs, hstep]

/-- C6 amended witness: concrete instances of the four behaviours, from
the CREATED state and a three-tick empty schedule. -/
theorem c6_amended_witness :
    GcpServer.loop .CREATED [Except.error ()] = .fetchFailed .CREATED ∧
    GcpServer.loop .CREATED
      (List.replicate 3 (Except.ok [])) = .pending .CREATED ∧
    GcpServer.loop .DELETED [Except.ok []] = .resolved .DELETED ∧
    GcpServer.loop .CREATED [Except.ok [("install-error", "disk full")]] =
      .installFailed .ERROR :=
  ⟨c6_amended.1 .CREATED () [] (by decide),
   c6_amended.2.1 3,
   c6_amended.2.2.1 [Except.ok []],
   c6_amended.2.2.2 .CREATED [("install-error", "disk full")] []
     (by decide) (by decide) (by decide)⟩

/-- C4: each evaluation of the cached snapshot by the cached-refresh
monitor applies the rules in the claimed priority order: a final state is
never changed; otherwise a truthy error tag yields ERROR; otherwise an
elapsed time at or past the timeout yields ERROR; otherwise a resolvable
endpoint and fingerprint pair yields SUCCESS (pinning the fingerprint and
recording the endpoint); otherwise a non-empty decoded tag map yields
BOOTED; otherwise coarse droplet status active yields CREATED; otherwise
the state is unchanged. -/
theorem c4_confirmed : ∀ (s : InstallState) (info : DigitalOceanServer.DropletInfo) (t : Nat),
    (3 ≤ s.val → DigitalOceanServer.updateInstallState s info t = s) ∧
    (s.val < 3 →
      jsTruthy (kvGet (DigitalOceanServer.getTagMap info.tags)
        DigitalOceanServer.INSTALL_ERROR_TAG) = true →
      DigitalOceanServer.updateInstallState s info t = .ERROR) ∧
    (s.val < 3 →
      jsTruthy (kvGet (DigitalOceanServer.getTagMap info.tags)
        DigitalOceanServer.INSTALL_ERROR_TAG) = false →
      DigitalOceanServer.TIMEOUT_MS ≤ t →
      DigitalOceanServer.updateInstallState s info t = .ERROR) ∧
    (∀ fp url, s.val < 3 →
      jsTruthy (kvGet (DigitalOceanServer.getTagMap info.tags)
        DigitalOceanServer.INSTALL_ERROR_TAG) = false →
      t < DigitalOceanServer.TIMEOUT_MS →
      DigitalOceanServer.setApiUrlAndCertificate info = some (fp, url) →
      DigitalOceanServer.updateInstallState s info t = .SUCCESS) ∧
    (s.val < 3 →
      jsTruthy (kvGet (DigitalOceanServer.getTagMap info.tags)
        DigitalOceanServer.INSTALL_ERROR_TAG) = false →
      t < DigitalOceanServer.TIMEOUT_MS →
      DigitalOceanServer.setApiUrlAndCertificate info = none →
      DigitalOceanServer.getTagMap info.tags ≠ [] →
      DigitalOceanServer.updateInstallState s info t = .BOOTED) ∧
    (s.val < 3 →
      jsTruthy (kvGet (DigitalOceanServer.getTagMap info.tags)
        DigitalOceanServer.INSTALL_ERROR_TAG) = false →
      t < DigitalOceanServer.TIMEOUT_MS →
      DigitalOceanServer.setApiUrlAndCertificate info = none →
      DigitalOceanServer.getTagMap info.tags = [] →
      info.status = "active" →
      DigitalOceanServer.updateInstallState s info t = .CREATED) ∧
    (s.val < 3 →
      jsTruthy (kvGet (DigitalOceanServer.getTagMap info.tags)
        DigitalOceanServer.INSTALL_ERROR_TAG) = false →
      t < DigitalOceanServer.TIMEOUT_MS →
      DigitalOceanServer.setApiUrlAndCertificate info = none →
      DigitalOceanServer.getTagMap info.tags = [] →
      info.status ≠ "active" →
      DigitalOceanServer.updateInstallState s info t = s) := by
  intro s info t
  refine ⟨?_, ?_, ?_, ?_, ?_, ?_, ?_⟩
  · intro h3
    simp [DigitalOceanServer.updateInstallState, h3]
  · intro hs herr
    simp [DigitalOceanServer.updateInstallState, DigitalOceanServer.setInstallState,
      Nat.not_le.2 hs, herr]
  · intro hs herr ht
    simp [DigitalOceanServer.updateInstallState, DigitalOceanServer.setInstallState,
      Nat.not_le.2 hs, herr, ht]
  · intro fp url hs herr ht hres
    simp [DigitalOceanServer.updateInstallState, DigitalOceanServer.setInstallState,
      Nat.not_le.2 hs, herr, Nat.not_le.2 ht, hres]
  · intro hs herr ht hres hne
    have hlen : 0 < (DigitalOceanServer.getTagMap info.tags).length :=
      List.length_pos.2 hne
    simp [DigitalOceanServer.updateInstallState, DigitalOceanServer.setInstallState,
      Nat.not_le.2 hs, herr, Nat.not_le.2 ht, hres, hlen]
  · intro hs herr ht hres hempty hact
    rw [hempty] at herr
    simp [DigitalOceanServer.updateInstallState, DigitalOceanServer.setInstallState,
      Nat.not_le.2 hs, herr, Nat.not_le.2 ht, hres, hempty, hact]
  · intro hs herr ht hres hempty hact
    rw [hempty] at herr
    simp [DigitalOceanServer.updateInstallState, DigitalOceanServer.setInstallState,
      Nat.not_le.2 hs, herr, Nat.not_le.2 ht, hres, hempty, hact]

/-- C4 witness: each priority rule exercised on a concrete droplet
snapshot (hex 61 decodes to the letter a; the long hex value decodes to
an absolute URL). -/
theorem c4_witness :
    DigitalOceanServer.updateInstallState .SUCCESS
      { status := "active", tags := ["kv:install-error:61"], networksV4 := [],
        sizeTransfer := 1, sizePriceMonthly := 5, regionSlug := "nyc1" } 0 = .SUCCESS ∧
    DigitalOceanServer.updateInstallState .CREATED
      { status := "active", tags := ["kv:install-error:61"], networksV4 := [],
        sizeTransfer := 1, sizePriceMonthly := 5, regionSlug := "nyc1" } 0 = .ERROR ∧
    DigitalOceanServer.updateInstallState .CREATED
      { status := "active", tags := [], networksV4 := [],
        sizeTransfer := 1, sizePriceMonthly := 5, regionSlug := "nyc1" }
      DigitalOceanServer.TIMEOUT_MS = .ERROR ∧
    DigitalOceanServer.updateInstallState .CREATED
      { status := "active",
        tags := ["kv:certsha256:61", "kv:apiurl:68747470733a2f2f782f"],
        networksV4 := [], sizeTransfer := 1, sizePriceMonthly := 5,
        regionSlug := "nyc1" } 0 = .SUCCESS ∧
    DigitalOceanServer.updateInstallState .CREATED
      { status := "active", tags := ["kv:foo:61"], networksV4 := [],
        sizeTransfer := 1, sizePriceMonthly := 5, regionSlug := "nyc1" } 0 = .BOOTED ∧
    DigitalOceanServer.updateInstallState .UNKNOWN
      { status := "active", tags := [], networksV4 := [],
        sizeTransfer := 1, sizePriceMonthly := 5, regionSlug := "nyc1" } 0 = .CREATED ∧
    DigitalOceanServer.updateInstallState .UNKNOWN
      { status := "new", tags := [], networksV4 := [],
        sizeTransfer := 1, sizePriceMonthly := 5, regionSlug := "nyc1" } 0 = .UNKNOWN :=
  ⟨(c4_confirmed .SUCCESS _ 0).1 (by decide),
   (c4_confirmed .CREATED _ 0).2.1 (by decide) (by decide),
   (c4_confirmed .CREATED _ _).2.2.1 (by decide) (by decide) (by decide),
   (c4_confirmed .CREATED _ 0).2.2.2.1 "a" "https://x/"
     (by decide) (by decide) (by decide) (by decide),
   (c4_confirmed .CREATED _ 0).2.2.2.2.1
     (by decide) (by decide) (by decide) (by decide) (by decide),
   (c4_confirmed .UNKNOWN _ 0).2.2.2.2.2.1
     (by decide) (by decide) (by decide) (by decide) (by decide) (by decide),
   (c4_confirmed .UNKNOWN _ 0).2.2.2.2.2.2
     (by decide) (by decide) (by decide) (by decide) (by decide) (by decide)⟩

namespace DigitalOceanServer

theorem updateInstallState_benign_pending (s : InstallState)
    (info : DropletInfo) (t : Nat) (hs : s.val < 3) (hb : benignInfo info)
    (ht : t < TIMEOUT_MS) : (updateInstallState s info t).val < 3 := by
  simp only [updateInstallState, setInstallState, Nat.not_le.2 hs, if_false,
    hb.1, Bool.false_eq_true, Nat.not_le.2 ht, hb.2]
  split
  · decide
  · split
    · decide
    · exact hs

theorem updateInstallState_benign_timeout (s : InstallState)
    (info : DropletInfo) (t : Nat) (hs : s.val < 3) (hb : benignInfo info)
    (ht : TIMEOUT_MS ≤ t) : updateInstallState s info t = .ERROR := by
  simp [updateInstallState, setInstallState, Nat.not_le.2 hs, hb.1, ht]

theorem pollEvents_benign (l : List PollEvent) :
    ∀ s : InstallState, s.val < 3 → (∀ p ∈ l, benignEvent p) →
      (pollEvents s l).1.val < 3 ∧ (pollEvents s l).2 = none := by
  induction l with
  | nil =>
    intro s hs _
    exact ⟨hs, rfl⟩
  | cons ev tl ih =>
    intro s hs hl
    obtain ⟨info, hok, hb, ht⟩ := hl ev (List.mem_cons_self ev tl)
    obtain ⟨t, r⟩ := ev
    cases hok
    have hup := updateInstallState_benign_pending s info t hs hb ht
    simp only [pollEvents, if_neg (Nat.not_le.2 hs), if_neg (Nat.not_le.2 hup)]
    exact ih _ hup (fun p hp => hl p (List.mem_cons_of_mem _ hp))

end DigitalOceanServer

/-- C5 counterexample: a cached-refresh monitor that never observes a
success or error attribute (its only refresh fails at elapsed time
3000 ms) reaches ERROR at 3000 ms, far before the 5-minute deadline, so
`waitOnInstall` rejects with the install-failed error before the
configured timeout, contradicting the claimed rejection time. -/
theorem c5_counterexample :
    DigitalOceanServer.runPoll
      { status := "new", tags := [], networksV4 := [], sizeTransfer := 1,
        sizePriceMonthly := 5, regionSlug := "nyc1" }
      [(3000, Except.error ())] = (.ERROR, some 3000) ∧
    3000 < DigitalOceanServer.TIMEOUT_MS ∧
    DigitalOceanServer.waitOutcome .ERROR = some .installFailed := by
  exact ⟨by decide, by decide, by decide⟩

/-- C5 (amended): for a cached-refresh monitor that never observes a
success or error attribute and whose refreshes all succeed, the state
stays below SUCCESS through every evaluation before the deadline (so
`waitOnInstall` stays pending, however many empty refreshes occur), and
the first evaluation at or after the 5-minute deadline, measured from
monitor construction, sets ERROR, after which `waitOnInstall` rejects
with the install-failed error; a failed refresh instead forces ERROR
immediately, possibly before the deadline (see the counterexample). -/
theorem c5_amended : ∀ (s : InstallState) (pre : List DigitalOceanServer.PollEvent)
    (t : Nat) (info : DigitalOceanServer.DropletInfo)
    (rest : List DigitalOceanServer.PollEvent),
    s.val < 3 → (∀ p ∈ pre, DigitalOceanServer.benignEvent p) →
    DigitalOceanServer.benignInfo info → DigitalOceanServer.TIMEOUT_MS ≤ t →
    (DigitalOceanServer.pollEvents s pre).1.val < 3 ∧
    (DigitalOceanServer.pollEvents s pre).2 = none ∧
    DigitalOceanServer.pollEvents s (pre ++ (t, Except.ok info) :: rest) =
      (.ERROR, some t) ∧
    DigitalOceanServer.waitOutcome .ERROR = some .installFailed := by
  intro s pre t info rest hs hpre hb ht
  obtain ⟨h1, h2⟩ := DigitalOceanServer.pollEvents_benign pre s hs hpre
  refine ⟨h1, h2, ?_, by decide⟩
  have happ := DigitalOceanServer.pollEvents_append pre s
    (DigitalOceanServer.pollEvents s pre).1 ((t, Except.ok info) :: rest)
    (by rw [← h2]) h1
  rw [happ]
  have herr := DigitalOceanServer.updateInstallState_benign_timeout
    (DigitalOceanServer.pollEvents s pre).1 info t h1 hb ht
  simp only [DigitalOceanServer.pollEvents, if_neg (Nat.not_le.2 h1), herr]
  simp [InstallState.val]

/-- C5 amended witness: one empty refresh at 3 seconds keeps the monitor
pending, and the refresh at exactly the 5-minute mark flips it to ERROR,
rejecting with the install-failed error. -/
theorem c5_amended_witness :
    (DigitalOceanServer.pollEvents .UNKNOWN
      [(3000, Except.ok DigitalOceanServer.sampleActiveDroplet)]).1.val < 3 ∧
    (DigitalOceanServer.pollEvents .UNKNOWN
      [(3000, Except.ok DigitalOceanServer.sampleActiveDroplet)]).2 = none ∧
    DigitalOceanServer.pollEvents .UNKNOWN
      ([(3000, Except.ok DigitalOceanServer.sampleActiveDroplet)] ++
        (300000, Except.ok DigitalOceanServer.sampleActiveDroplet) :: []) =
      (.ERROR, some 300000) ∧
    DigitalOceanServer.waitOutcome .ERROR = some .installFailed :=
  c5_amended .UNKNOWN [(3000, Except.ok DigitalOceanServer.sampleActiveDroplet)]
    300000 DigitalOceanServer.sampleActiveDroplet [] (by decide)
    (by
      intro p hp
      rw [List.mem_singleton] at hp
      subst hp
      exact ⟨_, rfl, by decide, by decide⟩)
    (by decide) (by decide)

/-- C7: in the cached-refresh strategy, whenever the state is still
non-terminal after any benign prefix of refreshes, a single failed
refresh at some tick immediately forces ERROR at that tick; the schedule
after the failure is irrelevant (the slow timer is stopped, nothing is
retried), and the fast cache-check timer then observes ERROR and rejects
`waitOnInstall` with the install-failed error. -/
theorem c7_confirmed : ∀ (s : InstallState)
    (pre : List DigitalOceanServer.PollEvent) (t : Nat)
    (rest : List DigitalOceanServer.PollEvent),
    (DigitalOceanServer.pollEvents s pre).2 = none →
    (DigitalOceanServer.pollEvents s pre).1.val < 3 →
    DigitalOceanServer.pollEvents s (pre ++ (t, Except.error ()) :: rest) =
      (.ERROR, some t) ∧
    (∀ rest2, DigitalOceanServer.pollEvents s (pre ++ (t, Except.error ()) :: rest2) =
      DigitalOceanServer.pollEvents s (pre ++ [(t, Except.error ())])) ∧
    DigitalOceanServer.waitOutcome .ERROR = some .installFailed := by
  intro s pre t rest h2 h1
  have happ : ∀ l2, DigitalOceanServer.pollEvents s (pre ++ l2) =
      DigitalOceanServer.pollEvents (DigitalOceanServer.pollEvents s pre).1 l2 :=
    fun l2 => DigitalOceanServer.pollEvents_append pre s
      (DigitalOceanServer.pollEvents s pre).1 l2 (by rw [← h2]) h1
  have hone : ∀ r2, DigitalOceanServer.pollEvents
      (DigitalOceanServer.pollEvents s pre).1 ((t, Except.error ()) :: r2) =
      (.ERROR, some t) := by
    intro r2
    simp [DigitalOceanServer.pollEvents, Nat.not_le.2 h1,
      DigitalOceanServer.setInstallState]
  refine ⟨?_, ?_, by decide⟩
  · rw [happ]
    exact hone rest
  · intro rest2
    rw [happ, happ]
    rw [hone rest2, hone []]

/-- C7 witness: after one benign empty refresh from UNKNOWN, a failed
refresh at 6 seconds yields ERROR at 6 seconds regardless of the
remaining schedule. -/
theorem c7_witness :
    DigitalOceanServer.pollEvents .UNKNOWN
      ([(3000, Except.ok DigitalOceanServer.sampleNewDroplet)] ++
        (6000, Except.error ()) ::
          [(9000, Except.ok DigitalOceanServer.sampleActiveDroplet)]) =
      (.ERROR, some 6000) ∧
    (∀ rest2, DigitalOceanServer.pollEvents .UNKNOWN
      ([(3000, Except.ok DigitalOceanServer.sampleNewDroplet)] ++
        (6000, Except.error ()) :: rest2) =
      DigitalOceanServer.pollEvents .UNKNOWN
        ([(3000, Except.ok DigitalOceanServer.sampleNewDroplet)] ++
          [(6000, Except.error ())])) ∧
    DigitalOceanServer.waitOutcome .ERROR = some .installFailed :=
  c7_confirmed .UNKNOWN
    [(3000, Except.ok DigitalOceanServer.sampleNewDroplet)] 6000
    [(9000, Except.ok DigitalOceanServer.sampleActiveDroplet)]
    (by decide) (by decide)

namespace DigitalOceanServer

theorem ensureTrailingSlash_ends (addr : String) :
    endsWithSlash (ensureTrailingSlash addr) = true := by
  unfold ensureTrailingSlash
  split
  · assumption
  · exact endsWithSlash_append addr

theorem ensureTrailingSlash_of_ends (addr : String)
    (h : endsWithSlash addr = true) : ensureTrailingSlash addr = addr := by
  unfold ensureTrailingSlash
  rw [h]
  rfl

theorem getManagementApiAddress_ends (info : DropletInfo) (r : String)
    (h : getManagementApiAddress info = .ok r) : endsWithSlash r = true := by
  unfold getManagementApiAddress at h
  cases hraw : rawApiAddress info with
  | error e =>
    rw [hraw] at h
    cases h
  | ok addr =>
    rw [hraw] at h
    injection h with h2
    rw [← h2]
    exact ensureTrailingSlash_ends addr

end DigitalOceanServer

theorem string_append_slash_v1 (x : String) :
    x ++ "/" ++ "v1" ++ "/" = x ++ "/v1/" := by
  rw [String.append_assoc, String.append_assoc]
  rfl

/-- C8: when the primary endpoint tag is absent or falsy but the
deprecated port tag is present and a public IPv4 address is known, the
synthesized management endpoint is exactly the https URL of that address
and port with a trailing slash; with a deprecated path segment tag of
value v1 it is that URL extended by v1 and a trailing slash; and every
address this getter returns ends with the trailing slash separator. -/
theorem c8_confirmed : ∀ (info : DigitalOceanServer.DropletInfo) (p a : String),
    jsTruthy (kvGet (DigitalOceanServer.getTagMap info.tags)
      DigitalOceanServer.API_URL_TAG) = false →
    kvGet (DigitalOceanServer.getTagMap info.tags)
      DigitalOceanServer.DEPRECATED_API_PORT_TAG = some p → p ≠ "" →
    DigitalOceanServer.ipv4Address info = some a → a ≠ "" →
    (jsTruthy (kvGet (DigitalOceanServer.getTagMap info.tags)
        DigitalOceanServer.DEPRECATED_API_PREFIX_TAG) = false →
      DigitalOceanServer.getManagementApiAddress info =
        .ok ("https://" ++ a ++ ":" ++ p ++ "/")) ∧
    (kvGet (DigitalOceanServer.getTagMap info.tags)
        DigitalOceanServer.DEPRECATED_API_PREFIX_TAG = some "v1" →
      DigitalOceanServer.getManagementApiAddress info =
        .ok ("https://" ++ a ++ ":" ++ p ++ "/v1/")) ∧
    (∀ r, DigitalOceanServer.getManagementApiAddress info = .ok r →
      endsWithSlash r = true) := by
  intro info p a h1 hp hpne ha hane
  have hport : jsTruthy (kvGet (DigitalOceanServer.getTagMap info.tags)
      DigitalOceanServer.DEPRECATED_API_PORT_TAG) = true := by
    rw [hp]
    exact jsTruthy_some_of_ne p hpne
  have hip : jsTruthy (DigitalOceanServer.ipv4Address info) = true := by
    rw [ha]
    exact jsTruthy_some_of_ne a hane
  have hpt : jsTruthy (some p) = true := jsTruthy_some_of_ne p hpne
  have hat : jsTruthy (some a) = true := jsTruthy_some_of_ne a hane
  refine ⟨?_, ?_, fun r h => DigitalOceanServer.getManagementApiAddress_ends info r h⟩
  · intro hpre
    have hraw : DigitalOceanServer.rawApiAddress info =
        .ok ("https://" ++ a ++ ":" ++ p ++ "/") := by
      simp [DigitalOceanServer.rawApiAddress, h1, hport, hip, hp, ha, hpre, hpt, hat]
    simp [DigitalOceanServer.getManagementApiAddress, hraw,
      DigitalOceanServer.ensureTrailingSlash_of_ends _
        (endsWithSlash_append ("https://" ++ a ++ ":" ++ p))]
  · intro hpre
    have hv1 : jsTruthy (some "v1") = true := rfl
    have hraw : DigitalOceanServer.rawApiAddress info =
        .ok ("https://" ++ a ++ ":" ++ p ++ "/" ++ "v1" ++ "/") := by
      simp [DigitalOceanServer.rawApiAddress, h1, hport, hip, hp, ha, hpre, hpt, hat, hv1]
    rw [string_append_slash_v1] at hraw
    simp [DigitalOceanServer.getManagementApiAddress, hraw,
      DigitalOceanServer.ensureTrailingSlash_of_ends _
        (string_append_slash_v1 ("https://" ++ a ++ ":" ++ p) ▸
          endsWithSlash_append ("https://" ++ a ++ ":" ++ p ++ "/" ++ "v1"))]

/-- C8 witness: a droplet whose tags hold only the deprecated port 8080
(hex 38303830) and, in the second conjunct, the deprecated path segment
v1 (hex 7631), with public address 1.2.3.4. -/
theorem c8_witness :
    DigitalOceanServer.getManagementApiAddress
      { status := "active", tags := ["kv:apiport:38303830"],
        networksV4 := [{ «type» := "public", ip_address := "1.2.3.4" }],
        sizeTransfer := 1, sizePriceMonthly := 5, regionSlug := "nyc1" } =
      .ok "https://1.2.3.4:8080/" ∧
    DigitalOceanServer.getManagementApiAddress
      { status := "active", tags := ["kv:apiport:38303830", "kv:apiprefix:7631"],
        networksV4 := [{ «type» := "public", ip_address := "1.2.3.4" }],
        sizeTransfer := 1, sizePriceMonthly := 5, regionSlug := "nyc1" } =
      .ok "https://1.2.3.4:8080/v1/" := by
  constructor
  · have h := (c8_confirmed
      { status := "active", tags := ["kv:apiport:38303830"],
        networksV4 := [{ «type» := "public", ip_address := "1.2.3.4" }],
        sizeTransfer := 1, sizePriceMonthly := 5, regionSlug := "nyc1" }
      "8080" "1.2.3.4" (by decide) (by decide) (by decide) (by decide)
      (by decide)).1 (by decide)
    rw [h]
    rfl
  · have h := (c8_confirmed
      { status := "active", tags := ["kv:apiport:38303830", "kv:apiprefix:7631"],
        networksV4 := [{ «type» := "public", ip_address := "1.2.3.4" }],
        sizeTransfer := 1, sizePriceMonthly := 5, regionSlug := "nyc1" }
      "8080" "1.2.3.4" (by decide) (by decide) (by decide) (by decide)
      (by decide)).2.1 (by decide)
    rw [h]
    rfl

/-- C9 counterexample: the GCP server returns a host descriptor cached at
construction time: constructed at instant 0, a `getHost` call at instant
7 still returns the descriptor born at 0, not a fresh one born at 7. -/
theorem c9_counterexample :
    (GcpServer.getHost (GcpServer.make 0 "instance-1" "addr-1") 7).birth = 0 ∧
    (0 : Nat) ≠ 7 := by
  exact ⟨rfl, by decide⟩

/-- C9 (amended): the DigitalOcean `getHost` constructs a fresh host
descriptor on every call, bound to the session and droplet info current
at the call instant; the GCP `getHost` instead returns the single host
descriptor allocated in the server constructor, whatever the call
instant. -/
theorem c9_amended :
    (∀ (sessionId : Nat) (info : DigitalOceanServer.DropletInfo) (now : Nat),
      (DigitalOceanServer.getHost sessionId info now).birth = now ∧
      (DigitalOceanServer.getHost sessionId info now).dropletInfo = info ∧
      (DigitalOceanServer.getHost sessionId info now).sessionId = sessionId) ∧
    (∀ (st : GcpServer.ServerState) (now : Nat),
      GcpServer.getHost st now = st.gcpHost) ∧
    (∀ (t0 : Nat) (instanceId addressName : String) (now : Nat),
      (GcpServer.getHost (GcpServer.make t0 instanceId addressName) now).birth = t0) :=
  ⟨fun _ _ _ => ⟨rfl, rfl, rfl⟩, fun _ _ => rfl, fun _ _ _ _ => rfl⟩
